import Mathlib

/-!
Formal model (shallow embedding) of the personal-vault core of the
openclaw repository: the encrypted document store
(`storage/encrypted-store.ts`), the multi-factor authentication manager,
the permission engine (`access/permission-engine.ts`), the approval
workflow (`access/approval-workflow.ts`), the data packager and the
secure transport layer (`delivery/secure-transport.ts`).

External effects are made explicit:

* `Date.now()` becomes a `now : Nat` parameter (milliseconds);
* outputs of `crypto.randomBytes` become explicit parameters;
* the node `crypto` primitives (AES-256-GCM, scrypt, RSA sign/verify),
  which are external collaborators of the repository, are modelled
  symbolically: a sealed blob records the key, IV and plaintext, and
  decryption succeeds exactly when key, IV and authentication tag
  match; a signature records the signing key and the signed canonical
  value, and verification succeeds exactly when the verification key
  and the canonical value match the ones recorded at signing time;
* a JavaScript `Map` becomes an association list (`aget`, `aset`,
  `aremove` below mirror `get`, `set` and `delete`); file persistence
  (`saveState` / `loadState`) is dropped because the in-memory mapping
  is the single source of truth during a process lifetime;
* JavaScript truthiness tests on optional numbers and strings are kept
  faithfully: `undefined`, `0` and the empty string are falsy
  (`jsTruthyNat`, `jsTruthyStr`, `jsOrDefault` below).
-/

namespace Vault

/-- Association-list lookup, mirroring `Map.prototype.get`. -/
def aget {α β : Type} [DecidableEq α] : List (α × β) → α → Option β
  | [], _ => none
  | (k, v) :: rest, key => if k = key then some v else aget rest key

/-- Association-list update, mirroring `Map.prototype.set`: replaces the
entry in place when the key is present, appends it otherwise. -/
def aset {α β : Type} [DecidableEq α] : List (α × β) → α → β → List (α × β)
  | [], key, value => [(key, value)]
  | (k, v) :: rest, key, value =>
    if k = key then (key, value) :: rest else (k, v) :: aset rest key value

/-- Association-list removal, mirroring `Map.prototype.delete`. -/
def aremove {α β : Type} [DecidableEq α] : List (α × β) → α → List (α × β)
  | [], _ => []
  | (k, v) :: rest, key =>
    if k = key then aremove rest key else (k, v) :: aremove rest key

theorem aget_aset_self {α β : Type} [DecidableEq α]
    (m : List (α × β)) (k : α) (v : β) : aget (aset m k v) k = some v := by
  induction m with
  | nil => simp [aset, aget]
  | cons p rest ih =>
    obtain ⟨k1, v1⟩ := p
    by_cases h : k1 = k
    · subst h; simp [aset, aget]
    · simp [aset, aget, h, ih]

theorem aget_aremove_self {α β : Type} [DecidableEq α]
    (m : List (α × β)) (k : α) : aget (aremove m k) k = none := by
  induction m with
  | nil => simp [aremove, aget]
  | cons p rest ih =>
    obtain ⟨k1, v1⟩ := p
    by_cases h : k1 = k
    · simp [aremove, h, ih]
    · simp [aremove, aget, h, ih]

/-- JavaScript truthiness of an optional number: `undefined` and `0` are
falsy, every other number is truthy. -/
def jsTruthyNat (o : Option Nat) : Bool := o.getD 0 ≠ 0

/-- JavaScript `x || d` on an optional number `x`: yields `d` when `x`
is `undefined` or `0`. -/
def jsOrDefault (o : Option Nat) (d : Nat) : Nat :=
  if o.getD 0 = 0 then d else o.getD 0

/-- JavaScript truthiness of an optional string: `undefined` and the
empty string are falsy. -/
def jsTruthyStr (o : Option String) : Bool := o.getD "" ≠ ""

/-! ## Symbolic authenticated encryption (node `crypto`, AES-256-GCM)

`crypto.createCipheriv` / `crypto.createDecipheriv` are external
collaborators; the symbolic model records the key, IV and plaintext in
the sealed blob, and the GCM authentication tag is the sealed blob
itself (the real tag binds key, IV and ciphertext). Decryption checks
that key, IV and tag all match and fails closed otherwise. -/

/-- A symbolic AEAD ciphertext: records the key, the IV and the sealed
plaintext. -/
structure Sealed (K A : Type) where
  key : K
  iv : List Nat
  plaintext : A
deriving DecidableEq

/-- Symbolic `createCipheriv(...).update/final/getAuthTag`: returns the
sealed blob, which doubles as the authentication tag. -/
def gcmEncrypt {K A : Type} (key : K) (iv : List Nat) (data : A) : Sealed K A :=
  ⟨key, iv, data⟩

/-- Symbolic `createDecipheriv(...).setAuthTag/update/final`: succeeds
exactly when the key, the IV and the tag match the sealing ones. -/
def gcmDecrypt {K A : Type} [DecidableEq K] [DecidableEq A]
    (key : K) (iv : List Nat) (tag ct : Sealed K A) : Option A :=
  if ct.key = key ∧ ct.iv = iv ∧ tag = ct then some ct.plaintext else none

/-! ## Encrypted document store (`storage/encrypted-store.ts`) -/

/-- A document key as produced by `deriveDocumentKey` (pbkdf2 over the
master key and the per-document salt); pbkdf2 is modelled as an
injective pairing. -/
structure DocKey where
  master : Nat
  salt : List Nat
deriving DecidableEq

/-- `deriveDocumentKey(masterKey, salt)`. -/
def deriveDocumentKey (masterKey : Nat) (salt : List Nat) : DocKey :=
  ⟨masterKey, salt⟩

/-- `EncryptedDocument.metadata`. -/
structure DocMetadata where
  created : Nat
  modified : Nat
  size : Nat
  version : Nat
deriving DecidableEq

/-- `EncryptedDocument`: `encryptedData` and `authTag` are the symbolic
AEAD blob (the tag binds key, IV and data). -/
structure EncryptedDocument where
  id : String
  category : String
  encryptedData : Sealed DocKey (List Nat)
  iv : List Nat
  authTag : Sealed DocKey (List Nat)
  salt : List Nat
  metadata : DocMetadata
deriving DecidableEq

/-- `StorageResult<T>`. -/
inductive StorageResult (α : Type) where
  | ok (value : α)
  | err (error : String)
deriving DecidableEq

/-- State of an `EncryptedVaultStorage` instance: the optional master
key and the persisted documents keyed by `(category, id)`. -/
structure VaultStorage where
  masterKey : Option Nat
  docs : List ((String × String) × EncryptedDocument)
deriving DecidableEq

/-- `EncryptedVaultStorage.storeDocument(category, id, data)`. The
fresh random IV and salt (`crypto.randomBytes`) and the current time
are explicit parameters; `persistDocument` is the `aset` update. -/
def storeDocument (st : VaultStorage) (category id : String)
    (data : List Nat) (iv salt : List Nat) (now : Nat) :
    StorageResult EncryptedDocument × VaultStorage :=
  match st.masterKey with
  | none => (.err "Vault not initialized", st)
  | some mk =>
    let docKey := deriveDocumentKey mk salt
    let sealed := gcmEncrypt docKey iv data
    let doc : EncryptedDocument :=
      { id := id, category := category, encryptedData := sealed, iv := iv,
        authTag := sealed, salt := salt,
        metadata :=
          { created := now, modified := now, size := data.length, version := 1 } }
    (.ok doc, { st with docs := aset st.docs (category, id) doc })

/-- `EncryptedVaultStorage.retrieveDocument(category, id)`: re-derives
the document key from the stored salt and decrypts; fails closed when
the document is absent or AEAD verification fails. -/
def retrieveDocument (st : VaultStorage) (category id : String) :
    StorageResult (List Nat) :=
  match st.masterKey with
  | none => .err "Vault not initialized"
  | some mk =>
    match aget st.docs (category, id) with
    | none => .err "Document not found"
    | some doc =>
      let docKey := deriveDocumentKey mk doc.salt
      match gcmDecrypt docKey doc.iv doc.authTag doc.encryptedData with
      | some data => .ok data
      | none => .err "Failed to retrieve document"

/-! ## Authentication manager (`VaultAuthManager`)

Source: the auth-manager module of the repository (multi-factor
authentication with passphrase, device, biometric and hardware-key
factors). Scrypt password hashing is modelled as an injective pairing
of passphrase and salt, and `crypto.timingSafeEqual` as equality (both
hashes are fixed-length scrypt outputs, so the length precondition of
`timingSafeEqual` always holds). Device-signature verification
(`crypto.createVerify`) is modelled symbolically: a signature is valid
under a public key exactly when it records the signed message and that
key. -/

/-- The `type` tag of an `AuthFactor`. -/
inductive FactorType where
  | passphrase
  | device
  | biometric
  | hardwareKey
deriving DecidableEq

/-- `AuthFactor`: tagged union of the four factor variants. -/
inductive AuthFactor where
  | passphrase (value : String)
  | device (deviceId : String) (signature : String)
  | biometric (token : String)
  | hardwareKey (challenge : String) (response : String)
deriving DecidableEq

/-- `factor.type`. -/
def AuthFactor.factorKind : AuthFactor → FactorType
  | .passphrase _ => .passphrase
  | .device _ _ => .device
  | .biometric _ => .biometric
  | .hardwareKey _ _ => .hardwareKey

/-- The string form of `factor.type` used in error messages. -/
def factorKindStr : FactorType → String
  | .passphrase => "passphrase"
  | .device => "device"
  | .biometric => "biometric"
  | .hardwareKey => "hardware-key"

/-- A scrypt hash as produced by `hashPassphrase`: modelled as the
injective pair of passphrase and salt. -/
structure ScryptHash where
  pass : String
  salt : String
deriving DecidableEq

/-- `hashPassphrase(passphrase, salt)`. -/
def hashPassphrase (passphrase salt : String) : ScryptHash :=
  ⟨passphrase, salt⟩

/-- Symbolic `crypto.createVerify("SHA256")` over a device id: a valid
signature records the message and the public key. -/
def verifyDeviceSig (publicKey message signature : String) : Bool :=
  signature = message ++ "|" ++ publicKey

/-- An entry of `StoredAuth.authorizedDevices`. -/
structure AuthorizedDevice where
  deviceId : String
  publicKey : String
  name : String
  addedAt : Nat
deriving DecidableEq

/-- `AuthSession`. -/
structure AuthSession where
  sessionId : String
  userId : String
  factors : List FactorType
  expiresAt : Nat
  createdAt : Nat
  deviceId : Option String
deriving DecidableEq

/-- `AuthResult`; the optional `requiresMfa` flag of the failure case
defaults to `false` when absent. -/
inductive AuthResult where
  | ok (session : AuthSession)
  | err (error : String) (requiresMfa : Bool)
deriving DecidableEq

/-- `StoredAuth`. -/
structure StoredAuth where
  userId : String
  passphraseHash : ScryptHash
  salt : String
  mfaEnabled : Bool
  authorizedDevices : List AuthorizedDevice
  sessions : List AuthSession
deriving DecidableEq

/-- State of a `VaultAuthManager` instance: the per-user auth records. -/
structure AuthState where
  authData : List (String × StoredAuth)
deriving DecidableEq

/-- `createSession(userId, factors, deviceId?)`; the random 32-byte
session id and the current time are explicit parameters. The TTL is
the fixed 24 hours in milliseconds. -/
def createSession (userId : String) (factors : List FactorType)
    (deviceId : Option String) (sessionRand : String) (now : Nat) : AuthSession :=
  { sessionId := sessionRand, userId := userId, factors := factors,
    expiresAt := now + 24 * 60 * 60 * 1000, createdAt := now,
    deviceId := deviceId }

/-- `validateFactor(authData, factor)`: scrypt-hash comparison for
passphrases, enrolled-key signature verification for devices, and the
placeholder non-empty checks for biometric and hardware-key factors. -/
def validateFactor (auth : StoredAuth) : AuthFactor → Bool
  | .passphrase value => hashPassphrase value auth.salt = auth.passphraseHash
  | .device deviceId signature =>
    match auth.authorizedDevices.find? (fun d => d.deviceId = deviceId) with
    | none => false
    | some dev => verifyDeviceSig dev.publicKey deviceId signature
  | .biometric token => token.length > 0
  | .hardwareKey _ response => response.length > 0

/-- `createUser(userId, passphrase, mfaEnabled)`: fails when the user
exists, otherwise stores the salted hash and pushes an initial
single-factor session. The random salt and session id and the current
time are explicit parameters. -/
def createUser (st : AuthState) (userId passphrase : String)
    (mfaEnabled : Bool) (saltRand sessionRand : String) (now : Nat) :
    AuthResult × AuthState :=
  match aget st.authData userId with
  | some _ => (.err "User already exists" false, st)
  | none =>
    let session := createSession userId [.passphrase] none sessionRand now
    let record : StoredAuth :=
      { userId := userId, passphraseHash := hashPassphrase passphrase saltRand,
        salt := saltRand, mfaEnabled := mfaEnabled, authorizedDevices := [],
        sessions := [session] }
    (.ok session, { st with authData := aset st.authData userId record })

/-- `authenticate(userId, factor)`: validates the one factor and, when
MFA is enabled and the factor is a passphrase, fails with the
distinguished requires-MFA outcome without issuing a session. -/
def authenticate (st : AuthState) (userId : String) (factor : AuthFactor)
    (sessionRand : String) (now : Nat) : AuthResult × AuthState :=
  match aget st.authData userId with
  | none => (.err "User not found" false, st)
  | some auth =>
    if ¬ validateFactor auth factor then
      (.err "Authentication failed" false, st)
    else if auth.mfaEnabled ∧ factor.factorKind = .passphrase then
      (.err "Multi-factor authentication required" true, st)
    else
      let session := createSession userId [factor.factorKind] none sessionRand now
      let updated := { auth with sessions := auth.sessions ++ [session] }
      (.ok session, { st with authData := aset st.authData userId updated })

/-- The factor-validation loop of `authenticateMfa`: returns the error
message of the first invalid factor, `none` when all validate. -/
def validateAllFactors (auth : StoredAuth) : List AuthFactor → Option String
  | [] => none
  | f :: rest =>
    if validateFactor auth f then validateAllFactors auth rest
    else some ("Invalid " ++ factorKindStr f.factorKind ++ " factor")

/-- `factors.find((f) => f.type === "device")?.deviceId`. -/
def findDeviceId (factors : List AuthFactor) : Option String :=
  match factors.find? (fun f => f.factorKind = FactorType.device) with
  | some (.device deviceId _) => some deviceId
  | _ => none

/-- `authenticateMfa(userId, factors)`: every supplied factor must
validate (all-or-nothing); on success a session carrying all factor
types (and the device id of a device factor, when present) is pushed. -/
def authenticateMfa (st : AuthState) (userId : String)
    (factors : List AuthFactor) (sessionRand : String) (now : Nat) :
    AuthResult × AuthState :=
  match aget st.authData userId with
  | none => (.err "User not found" false, st)
  | some auth =>
    match validateAllFactors auth factors with
    | some e => (.err e false, st)
    | none =>
      let session :=
        createSession userId (factors.map AuthFactor.factorKind)
          (findDeviceId factors) sessionRand now
      let updated := { auth with sessions := auth.sessions ++ [session] }
      (.ok session, { st with authData := aset st.authData userId updated })

/-! ## Permission engine (`access/permission-engine.ts`) -/

/-- `PermissionLevel`. -/
inductive PermissionLevel where
  | read
  | write
  | delete
  | share
deriving DecidableEq

/-- The string form of a `PermissionLevel` used in error messages. -/
def levelStr : PermissionLevel → String
  | .read => "read"
  | .write => "write"
  | .delete => "delete"
  | .share => "share"

/-- `Permission.conditions.timeRestriction`. -/
structure TimeRestriction where
  validFrom : Option Nat
  validUntil : Option Nat
deriving DecidableEq

/-- `Permission.conditions.usageLimit`. -/
structure UsageLimit where
  maxUses : Nat
  currentUses : Nat
deriving DecidableEq

/-- `Permission.conditions.recipientRestriction`. -/
structure RecipientRestriction where
  allowedRecipients : List String
deriving DecidableEq

/-- `Permission.conditions.purposeRestriction`. -/
structure PurposeRestriction where
  allowedPurposes : List String
deriving DecidableEq

/-- `Permission.conditions`. -/
structure PermConditions where
  timeRestriction : Option TimeRestriction
  usageLimit : Option UsageLimit
  recipientRestriction : Option RecipientRestriction
  purposeRestriction : Option PurposeRestriction
deriving DecidableEq

/-- `Permission`. -/
structure Permission where
  category : String
  fields : Option (List String)
  level : List PermissionLevel
  conditions : Option PermConditions
deriving DecidableEq

/-- The optional `context` argument of `checkPermission`. -/
structure PermContext where
  recipient : Option String
  purpose : Option String
deriving DecidableEq

/-- `PermissionCheckResult`. -/
structure PermissionCheckResult where
  allowed : Bool
  reason : Option String
deriving DecidableEq

/-- The single-quote character, used to rebuild the template string of
the level-denial reason without a literal quote. -/
def quoteChar : String := String.singleton (Char.ofNat 39)

/-- The reason string of a denial at the permission-level step. -/
def levelDeniedReason (level : PermissionLevel) : String :=
  "Permission level " ++ quoteChar ++ levelStr level ++ quoteChar ++ " not granted"

/-- The reason string of a denial at the field-restriction step. -/
def fieldsDeniedReason (restrictedFields : List String) : String :=
  "Access denied to fields: " ++ String.intercalate ", " restrictedFields

/-- `PermissionEngine.checkConditions(permission, context)`: time
window, usage limit, recipient allow-list and purpose allow-list, in
that order; recipient and purpose are only checked when the context
supplies a truthy value. -/
def checkConditions (permission : Permission) (context : Option PermContext)
    (now : Nat) : PermissionCheckResult :=
  match permission.conditions with
  | none => ⟨true, none⟩
  | some conditions =>
    let timeFail :=
      match conditions.timeRestriction with
      | none => none
      | some t =>
        if jsTruthyNat t.validFrom ∧ now < t.validFrom.getD 0 then
          some "Permission not yet valid"
        else if jsTruthyNat t.validUntil ∧ now > t.validUntil.getD 0 then
          some "Permission has expired"
        else none
    match timeFail with
    | some r => ⟨false, some r⟩
    | none =>
      let usageFail :=
        match conditions.usageLimit with
        | none => none
        | some u =>
          if u.currentUses ≥ u.maxUses then some "Usage limit exceeded" else none
      match usageFail with
      | some r => ⟨false, some r⟩
      | none =>
        let ctxRecipient := (context.map (·.recipient)).getD none
        let recipientFail :=
          match conditions.recipientRestriction with
          | none => none
          | some rr =>
            if jsTruthyStr ctxRecipient ∧
                ¬ rr.allowedRecipients.contains (ctxRecipient.getD "") then
              some "Recipient not authorized"
            else none
        match recipientFail with
        | some r => ⟨false, some r⟩
        | none =>
          let ctxPurpose := (context.map (·.purpose)).getD none
          match conditions.purposeRestriction with
          | none => ⟨true, none⟩
          | some pr =>
            if jsTruthyStr ctxPurpose ∧
                ¬ pr.allowedPurposes.contains (ctxPurpose.getD "") then
              ⟨false, some "Purpose not authorized"⟩
            else ⟨true, none⟩

/-- `PermissionEngine.checkPermission(userId, category, fields, level,
context?)`: grant lookup, category match, level membership, field
restriction (when the grant has a non-empty field list) and finally the
conditions. The engine state is the per-user grant map. -/
def checkPermission (perms : List (String × List Permission))
    (userId category : String) (fields : List String)
    (level : PermissionLevel) (context : Option PermContext) (now : Nat) :
    PermissionCheckResult :=
  match aget perms userId with
  | none => ⟨false, some "No permissions granted"⟩
  | some userPerms =>
    if userPerms.isEmpty then ⟨false, some "No permissions granted"⟩
    else
      match userPerms.find? (fun p => p.category = category) with
      | none => ⟨false, some "No permission for this category"⟩
      | some matchingPerm =>
        if ¬ matchingPerm.level.contains level then
          ⟨false, some (levelDeniedReason level)⟩
        else
          let fieldFail :=
            match matchingPerm.fields with
            | none => none
            | some permFields =>
              if permFields.isEmpty then none
              else
                let restrictedFields :=
                  fields.filter (fun f => ¬ permFields.contains f)
                if restrictedFields.isEmpty then none
                else some (fieldsDeniedReason restrictedFields)
          match fieldFail with
          | some r => ⟨false, some r⟩
          | none =>
            if matchingPerm.conditions.isSome then
              let c := checkConditions matchingPerm context now
              if c.allowed then ⟨true, none⟩ else c
            else ⟨true, none⟩

/-! ## Approval workflow (`access/approval-workflow.ts`) -/

/-- `DataRequest.requester`. -/
structure Requester where
  id : String
  name : String
  email : Option String
  organization : Option String
deriving DecidableEq

/-- `DataRequest` (from `access/request-validator.ts`). -/
structure DataRequest where
  requestId : String
  requester : Requester
  category : String
  fields : List String
  purpose : String
  createdAt : Nat
  expiresAt : Nat
  signature : Option String
  publicKey : Option String
deriving DecidableEq

/-- `ApprovalStatus`. -/
inductive ApprovalStatus where
  | pending
  | approved
  | rejected
  | expired
deriving DecidableEq

/-- `DataApproval.restrictions`. `usesRemaining` is an `Int` because
`recordFulfillment` decrements it without a lower bound. -/
structure Restrictions where
  maxUses : Option Int
  usesRemaining : Option Int
  validUntil : Option Nat
  allowedRecipients : Option (List String)
deriving DecidableEq

/-- `DataApproval`. -/
structure DataApproval where
  requestId : String
  status : ApprovalStatus
  approvedBy : Option String
  approvedAt : Option Nat
  rejectedBy : Option String
  rejectedAt : Option Nat
  reason : Option String
  restrictions : Option Restrictions
deriving DecidableEq

/-- `ApprovalDecision`. -/
structure ApprovalDecision where
  approved : Bool
  reason : Option String
  restrictions : Option Restrictions
deriving DecidableEq

/-- `ApprovalResult`. -/
inductive ApprovalResult where
  | ok (approval : DataApproval)
  | err (error : String)
deriving DecidableEq

/-- State of an `ApprovalWorkflow` instance: the pending requests and
the approvals, both keyed by request id. -/
structure WorkflowState where
  pendingRequests : List (String × DataRequest)
  approvals : List (String × DataApproval)
deriving DecidableEq

/-- `ApprovalWorkflow.submitRequest(request)`. -/
def submitRequest (st : WorkflowState) (request : DataRequest) (now : Nat) :
    ApprovalResult × WorkflowState :=
  if (aget st.pendingRequests request.requestId).isSome then
    (.err "Request already exists", st)
  else if (aget st.approvals request.requestId).isSome then
    (.err "Request already processed", st)
  else if now > request.expiresAt then
    (.err "Request has expired", st)
  else
    let approval : DataApproval :=
      { requestId := request.requestId, status := .pending, approvedBy := none,
        approvedAt := none, rejectedBy := none, rejectedAt := none,
        reason := none, restrictions := none }
    (.ok approval,
     { pendingRequests := aset st.pendingRequests request.requestId request,
       approvals := aset st.approvals request.requestId approval })

/-- `ApprovalWorkflow.approveRequest(requestId, approvedBy, decision)`:
only valid from a pending approval whose request is still in the
pending set; an expired request transitions to `expired` and fails; a
decision transitions to `approved` or `rejected` and removes the
request from the pending set. -/
def approveRequest (st : WorkflowState) (requestId who : String)
    (decision : ApprovalDecision) (now : Nat) : ApprovalResult × WorkflowState :=
  match aget st.pendingRequests requestId, aget st.approvals requestId with
  | some request, some approval =>
    if approval.status ≠ .pending then (.err "Request already processed", st)
    else if now > request.expiresAt then
      let a := { approval with status := ApprovalStatus.expired }
      (.err "Request has expired", { st with approvals := aset st.approvals requestId a })
    else if decision.approved then
      let a := { approval with
                 status := ApprovalStatus.approved,
                 approvedBy := some who, approvedAt := some now,
                 restrictions := decision.restrictions }
      (.ok a,
       { pendingRequests := aremove st.pendingRequests requestId,
         approvals := aset st.approvals requestId a })
    else
      let a := { approval with
                 status := ApprovalStatus.rejected,
                 rejectedBy := some who, rejectedAt := some now,
                 reason := decision.reason }
      (.ok a,
       { pendingRequests := aremove st.pendingRequests requestId,
         approvals := aset st.approvals requestId a })
  | _, _ => (.err "Request not found", st)

/-- `ApprovalWorkflow.canFulfillRequest(requestId)`: approved status
and, when restrictions are present, a live time window (JavaScript
truthiness: a `validUntil` of `0` is skipped) and a positive tracked
remaining-use count. -/
def canFulfillRequest (st : WorkflowState) (requestId : String) (now : Nat) : Bool :=
  match aget st.approvals requestId with
  | none => false
  | some approval =>
    if approval.status ≠ .approved then false
    else
      match approval.restrictions with
      | none => true
      | some r =>
        if jsTruthyNat r.validUntil ∧ now > r.validUntil.getD 0 then false
        else if r.usesRemaining.isSome ∧ r.usesRemaining.getD 0 ≤ 0 then false
        else true

/-- `ApprovalWorkflow.recordFulfillment(requestId)`: succeeds for any
existing approval record and decrements `usesRemaining` when tracked,
with no status check and no lower bound. -/
def recordFulfillment (st : WorkflowState) (requestId : String) :
    Bool × WorkflowState :=
  match aget st.approvals requestId with
  | none => (false, st)
  | some approval =>
    match approval.restrictions with
    | none => (true, st)
    | some r =>
      match r.usesRemaining with
      | none => (true, st)
      | some u =>
        let a := { approval with
                   restrictions := some { r with usesRemaining := some (u - 1) } }
        (true, { st with approvals := aset st.approvals requestId a })

/-! ## Data packager (`DataPackager`)

RSA signing (`crypto.createSign` / `crypto.createVerify`) is modelled
symbolically: keys are identifiers, `generateKeyPair` yields a matching
pair (the same identifier on both sides), a signature records the
signing key and the signed canonical value, and verification succeeds
exactly when the verification key and the canonical serialization
match. The canonical serialization (`JSON.stringify` of a fixed field
record) is modelled by the `SignedFields` record itself, which is
injective in each field exactly like the JSON encoding. The packager
is generic in the type `V` of the data values (`unknown` in the
source). -/

/-- `DataPackage.metadata`. -/
structure PkgMetadata where
  createdAt : Nat
  expiresAt : Nat
  oneTimeUse : Bool
  watermarked : Bool
deriving DecidableEq

/-- The `__watermark` record injected by `addWatermark`; the sha256
hash binding package id, recipient and timestamp is modelled as the
injective triple itself. -/
structure WatermarkRecord where
  packageId : String
  recipient : String
  timestamp : Nat
  hash : String × String × Nat
deriving DecidableEq

/-- The plaintext sealed inside a package: the filtered entries plus
the optional watermark record. -/
structure PackPayload (V : Type) where
  entries : List (String × V)
  watermark : Option WatermarkRecord
deriving DecidableEq

/-- The canonical serialization signed by `signPackage` and re-derived
by `verifyPackage`: package id, request id, recipient, category,
fields, ciphertext and metadata (the IV, tag and key are not signed). -/
structure SignedFields (V : Type) where
  packageId : String
  requestId : String
  recipient : String
  category : String
  fields : List String
  encryptedData : Sealed Nat (PackPayload V)
  metadata : PkgMetadata
deriving DecidableEq

/-- A symbolic RSA signature: records the signing key and the signed
canonical value. -/
structure RsaSig (V : Type) where
  key : Nat
  signed : SignedFields V
deriving DecidableEq

/-- `DataPackage`. -/
structure DataPackage (V : Type) where
  packageId : String
  requestId : String
  recipient : String
  category : String
  fields : List String
  encryptedData : Sealed Nat (PackPayload V)
  iv : List Nat
  authTag : Sealed Nat (PackPayload V)
  signature : RsaSig V
  metadata : PkgMetadata
deriving DecidableEq

/-- `PackageOptions`. -/
structure PackageOptions where
  expirationMinutes : Option Nat
  oneTimeUse : Option Bool
  watermark : Option Bool
  encryptionKey : Option Nat
deriving DecidableEq

/-- `PackagerResult<T>`. -/
inductive PackagerResult (α : Type) where
  | ok (value : α)
  | err (error : String)
deriving DecidableEq

/-- A `DataPackager` instance: its signing key pair. -/
structure DataPackager where
  privateKey : Nat
  publicKey : Nat
deriving DecidableEq

/-- `DataPackager.filterFields(data, fields)`: a requested field list
containing the wildcard passes the data through unfiltered; otherwise
only the requested fields present in the data are kept. -/
def filterFields {V : Type} (data : List (String × V)) (fields : List String) :
    List (String × V) :=
  if fields.contains "*" then data
  else fields.filterMap (fun f => (aget data f).map (fun v => (f, v)))

/-- `DataPackager.addWatermark(data, packageId, recipient)`. -/
def addWatermark {V : Type} (data : List (String × V))
    (packageId recipient : String) (now : Nat) : PackPayload V :=
  { entries := data,
    watermark := some
      { packageId := packageId, recipient := recipient, timestamp := now,
        hash := (packageId, recipient, now) } }

/-- The canonical serialization of a package, shared by `signPackage`
and `verifyPackage`. -/
def signedFieldsOf {V : Type} (pkg : DataPackage V) : SignedFields V :=
  { packageId := pkg.packageId, requestId := pkg.requestId,
    recipient := pkg.recipient, category := pkg.category,
    fields := pkg.fields, encryptedData := pkg.encryptedData,
    metadata := pkg.metadata }

/-- `DataPackager.signPackage(pkg)`. -/
def signPackage {V : Type} (packager : DataPackager) (sf : SignedFields V) :
    RsaSig V :=
  ⟨packager.privateKey, sf⟩

/-- `DataPackager.verifyPackage(pkg)`: re-derives the canonical
serialization and checks the signature against the public key. -/
def verifyPackage {V : Type} [DecidableEq V] (packager : DataPackager)
    (pkg : DataPackage V) : Bool :=
  pkg.signature = RsaSig.mk packager.publicKey (signedFieldsOf pkg)

/-- `DataPackager.createPackage(requestId, recipient, category, fields,
data, options)`: filter, optional watermark, AEAD encryption under a
provided or fresh key, expiry metadata (default 60 minutes) and the
signature over the canonical serialization. The random package id, the
fresh key, the IV and the current time are explicit parameters. -/
def createPackage {V : Type} (packager : DataPackager)
    (requestId recipient category : String) (fields : List String)
    (data : List (String × V)) (options : PackageOptions)
    (packageId : String) (keyRand : Nat) (iv : List Nat) (now : Nat) :
    PackagerResult (DataPackage V) :=
  let filteredData := filterFields data fields
  let dataToPackage : PackPayload V :=
    if options.watermark.getD false then
      addWatermark filteredData packageId recipient now
    else { entries := filteredData, watermark := none }
  let encryptionKey := options.encryptionKey.getD keyRand
  let sealed := gcmEncrypt encryptionKey iv dataToPackage
  let expirationMinutes := jsOrDefault options.expirationMinutes 60
  let metadata : PkgMetadata :=
    { createdAt := now, expiresAt := now + expirationMinutes * 60 * 1000,
      oneTimeUse := options.oneTimeUse.getD false,
      watermarked := options.watermark.getD false }
  let sf : SignedFields V :=
    { packageId := packageId, requestId := requestId, recipient := recipient,
      category := category, fields := fields, encryptedData := sealed,
      metadata := metadata }
  .ok
    { packageId := packageId, requestId := requestId, recipient := recipient,
      category := category, fields := fields, encryptedData := sealed,
      iv := iv, authTag := sealed, signature := signPackage packager sf,
      metadata := metadata }

/-- The result record of `isPackageValid`. -/
structure ValidCheck where
  valid : Bool
  reason : Option String
deriving DecidableEq

/-- `DataPackager.isPackageValid(pkg)`: not expired and signature
verifies, in that order. -/
def isPackageValid {V : Type} [DecidableEq V] (packager : DataPackager)
    (pkg : DataPackage V) (now : Nat) : ValidCheck :=
  if now > pkg.metadata.expiresAt then ⟨false, some "Package has expired"⟩
  else if ¬ verifyPackage packager pkg then
    ⟨false, some "Package signature is invalid"⟩
  else ⟨true, none⟩

/-! ## Secure transport (`delivery/secure-transport.ts`) -/

/-- `DeliveryMethod`. -/
inductive DeliveryMethod where
  | email
  | portal
  | api
  | channel
deriving DecidableEq

/-- `DeliveryOptions`; the `encryptionKey` buffer is modelled as its
base64 string form since only `toString("base64")` is applied to it. -/
structure DeliveryOptions where
  method : DeliveryMethod
  recipient : String
  encryptionKey : Option String
  expirationMinutes : Option Nat
  notifyRecipient : Option Bool
deriving DecidableEq

/-- `DeliveryResult`. -/
structure DeliveryResult where
  success : Bool
  deliveryId : Option String
  accessUrl : Option String
  encryptionKey : Option String
  error : Option String
deriving DecidableEq

/-- `AccessToken`. -/
structure AccessToken where
  tokenId : String
  packageId : String
  recipient : String
  encryptionKey : String
  expiresAt : Nat
  used : Bool
deriving DecidableEq

/-- State of a `SecureTransport` instance: the base URL and the minted
access tokens keyed by token id. -/
structure TransportState where
  baseUrl : String
  accessTokens : List (String × AccessToken)
deriving DecidableEq

/-- `SecureTransport.deliverViaPortal(pkg, options)`: mints a fresh
access token (random id and key material, TTL defaulting to 60
minutes), records it and returns the deterministic access URL. -/
def deliverViaPortal {V : Type} (tr : TransportState) (pkg : DataPackage V)
    (options : DeliveryOptions) (tokenRand keyRand : String) (now : Nat) :
    DeliveryResult × TransportState :=
  let expirationMinutes := jsOrDefault options.expirationMinutes 60
  let token : AccessToken :=
    { tokenId := tokenRand, packageId := pkg.packageId,
      recipient := options.recipient, encryptionKey := keyRand,
      expiresAt := now + expirationMinutes * 60 * 1000, used := false }
  let accessUrl := tr.baseUrl ++ "/vault/access/" ++ tokenRand
  ({ success := true, deliveryId := some tokenRand,
     accessUrl := some accessUrl, encryptionKey := some keyRand,
     error := none },
   { tr with accessTokens := aset tr.accessTokens tokenRand token })

/-- `SecureTransport.deliverViaEmail(pkg, options)`: degrades to portal
delivery (the email integration is an external collaborator). -/
def deliverViaEmail {V : Type} (tr : TransportState) (pkg : DataPackage V)
    (options : DeliveryOptions) (tokenRand keyRand : String) (now : Nat) :
    DeliveryResult × TransportState :=
  deliverViaPortal tr pkg options tokenRand keyRand now

/-- `SecureTransport.deliverViaApi(pkg, options)`: returns a fresh api
token as delivery id and a package URL, without recording any token. -/
def deliverViaApi {V : Type} (tr : TransportState) (pkg : DataPackage V)
    (options : DeliveryOptions) (tokenRand : String) :
    DeliveryResult × TransportState :=
  ({ success := true, deliveryId := some tokenRand,
     accessUrl := some (tr.baseUrl ++ "/api/vault/packages/" ++ pkg.packageId),
     encryptionKey := options.encryptionKey, error := none }, tr)

/-- `SecureTransport.deliverViaChannel(pkg, options)`: returns only the
package id as delivery id (the channel integration is an external
collaborator). -/
def deliverViaChannel {V : Type} (tr : TransportState) (pkg : DataPackage V) :
    DeliveryResult × TransportState :=
  ({ success := true, deliveryId := some pkg.packageId, accessUrl := none,
     encryptionKey := none, error := none }, tr)

/-- `SecureTransport.deliverPackage(pkg, options)`: dispatch on the
delivery method. -/
def deliverPackage {V : Type} (tr : TransportState) (pkg : DataPackage V)
    (options : DeliveryOptions) (tokenRand keyRand : String) (now : Nat) :
    DeliveryResult × TransportState :=
  match options.method with
  | .portal => deliverViaPortal tr pkg options tokenRand keyRand now
  | .email => deliverViaEmail tr pkg options tokenRand keyRand now
  | .api => deliverViaApi tr pkg options tokenRand
  | .channel => deliverViaChannel tr pkg

/-- `SecureTransport.validateAccessToken(tokenId)`: the token must
exist, be unexpired and unused. -/
def validateAccessToken (tr : TransportState) (tokenId : String) (now : Nat) :
    Option AccessToken :=
  match aget tr.accessTokens tokenId with
  | none => none
  | some token =>
    if now > token.expiresAt then none
    else if token.used then none
    else some token

/-- `SecureTransport.markTokenUsed(tokenId)`: one-way flag flip. -/
def markTokenUsed (tr : TransportState) (tokenId : String) :
    Bool × TransportState :=
  match aget tr.accessTokens tokenId with
  | none => (false, tr)
  | some token =>
    let updated := { token with used := true }
    (true, { tr with accessTokens := aset tr.accessTokens tokenId updated })

/-! ## Claim C1: store / retrieve round-trip -/

/-- C1: for every byte payload, category and id, if the store is
initialized and `storeDocument` succeeds, then a subsequent
`retrieveDocument` on the resulting state (with no intervening
mutation) succeeds and returns exactly the stored payload. -/
theorem store_retrieve_roundtrip (st : VaultStorage) (mk : Nat)
    (category id : String) (payload iv salt : List Nat) (now : Nat)
    (doc : EncryptedDocument) (st2 : VaultStorage)
    (hinit : st.masterKey = some mk)
    (hstore : storeDocument st category id payload iv salt now = (.ok doc, st2)) :
    retrieveDocument st2 category id = .ok payload := by
  unfold storeDocument at hstore
  rw [hinit] at hstore
  simp only [Prod.mk.injEq, StorageResult.ok.injEq] at hstore
  obtain ⟨hdoc, hst⟩ := hstore
  subst hst
  unfold retrieveDocument
  simp [hinit, aget_aset_self, gcmDecrypt, gcmEncrypt, deriveDocumentKey]

/-- Initial state for the C1 witness: an initialized store, no docs. -/
def c1State : VaultStorage := { masterKey := some 7, docs := [] }

/-- The document produced by the C1 witness store call. -/
def c1Doc : EncryptedDocument :=
  { id := "vax-1", category := "medical",
    encryptedData := ⟨⟨7, [5]⟩, [4], [1, 2, 3]⟩, iv := [4],
    authTag := ⟨⟨7, [5]⟩, [4], [1, 2, 3]⟩, salt := [5],
    metadata := { created := 100, modified := 100, size := 3, version := 1 } }

/-- The store state after the C1 witness store call. -/
def c1After : VaultStorage :=
  { masterKey := some 7, docs := [(("medical", "vax-1"), c1Doc)] }

theorem store_retrieve_roundtrip_witness :
    retrieveDocument c1After "medical" "vax-1" = .ok [1, 2, 3] :=
  store_retrieve_roundtrip c1State 7 "medical" "vax-1" [1, 2, 3] [4] [5] 100
    c1Doc c1After rfl (by decide)

/-! ## Claim C2: second approveRequest on a terminal approval -/

/-- Requester of the C2 scenario. -/
def c2Requester : Requester :=
  { id := "employer-1", name := "Employer", email := none, organization := none }

/-- Request of the C2 scenario, expiring at time 1000. -/
def c2Request : DataRequest :=
  { requestId := "req-1", requester := c2Requester, category := "medical",
    fields := ["name"], purpose := "verify", createdAt := 0, expiresAt := 1000,
    signature := none, publicKey := none }

/-- Pending approval of the C2 scenario. -/
def c2Approval : DataApproval :=
  { requestId := "req-1", status := .pending, approvedBy := none,
    approvedAt := none, rejectedBy := none, rejectedAt := none,
    reason := none, restrictions := none }

/-- Workflow state of the C2 scenario: one pending request. -/
def c2State : WorkflowState :=
  { pendingRequests := [("req-1", c2Request)],
    approvals := [("req-1", c2Approval)] }

/-- The approving decision of the C2 scenario. -/
def c2Decision : ApprovalDecision :=
  { approved := true, reason := none, restrictions := none }

/-- C2 counterexample: after a first `approveRequest` succeeds (the
approval reaches the terminal status `approved`), a second call on the
same id does fail, but with the not-found reason `Request not found`
rather than the conflict reason `Request already processed`, because
the successful call removed the request from the pending set. -/
theorem approve_second_call_counterexample :
    (approveRequest c2State "req-1" "owner" c2Decision 5).1 =
      .ok { c2Approval with
            status := .approved, approvedBy := some "owner",
            approvedAt := some 5 } ∧
    (approveRequest (approveRequest c2State "req-1" "owner" c2Decision 5).2
        "req-1" "owner" c2Decision 6).1 = .err "Request not found" ∧
    "Request not found" ≠ "Request already processed" := by
  refine ⟨by decide, by decide, by decide⟩

/-- C2 amended: once an approval reaches the terminal status `approved`
or `rejected` via a successful `approveRequest`, any second
`approveRequest` call on the same id fails and leaves the state
unchanged, but the failure carries the not-found reason (the
successful call removed the request from the pending set), not the
already-processed conflict reason. -/
theorem approve_request_terminal_second_not_found
    (st : WorkflowState) (requestId who : String) (decision : ApprovalDecision)
    (now : Nat) (a : DataApproval) (st2 : WorkflowState)
    (h : approveRequest st requestId who decision now = (.ok a, st2)) :
    (a.status = .approved ∨ a.status = .rejected) ∧
    ∀ who2 decision2 now2,
      approveRequest st2 requestId who2 decision2 now2 =
        (.err "Request not found", st2) := by
  unfold approveRequest at h
  rcases hp : aget st.pendingRequests requestId with _ | request
  · rw [hp] at h; simp at h
  · rcases ha : aget st.approvals requestId with _ | approval
    · rw [hp, ha] at h; simp at h
    · rw [hp, ha] at h
      by_cases h1 : approval.status ≠ ApprovalStatus.pending
      · simp [h1] at h
      · by_cases h2 : now > request.expiresAt
        · simp [h1, h2] at h
        · by_cases h3 : decision.approved
          · simp only [if_neg h1, if_neg (by omega : ¬ now > request.expiresAt),
              if_pos h3, Prod.mk.injEq, ApprovalResult.ok.injEq] at h
            obtain ⟨ha1, hst⟩ := h
            subst hst
            constructor
            · left; rw [← ha1]
            · intro who2 decision2 now2
              have hnone : aget (aremove st.pendingRequests requestId) requestId = none :=
                aget_aremove_self _ _
              unfold approveRequest
              simp [hnone]
          · simp only [if_neg h1, if_neg (by omega : ¬ now > request.expiresAt),
              if_neg h3, Prod.mk.injEq, ApprovalResult.ok.injEq] at h
            obtain ⟨ha1, hst⟩ := h
            subst hst
            constructor
            · right; rw [← ha1]
            · intro who2 decision2 now2
              have hnone : aget (aremove st.pendingRequests requestId) requestId = none :=
                aget_aremove_self _ _
              unfold approveRequest
              simp [hnone]

/-- The approval after the successful C2 witness call. -/
def c2ApprovedRecord : DataApproval :=
  { c2Approval with
    status := .approved, approvedBy := some "owner", approvedAt := some 5 }

/-- Workflow state after the successful C2 witness call. -/
def c2After : WorkflowState :=
  { pendingRequests := [], approvals := [("req-1", c2ApprovedRecord)] }

theorem approve_request_terminal_second_not_found_witness :
    approveRequest c2After "req-1" "owner" c2Decision 6 =
      (.err "Request not found", c2After) :=
  (approve_request_terminal_second_not_found c2State "req-1" "owner" c2Decision 5
    c2ApprovedRecord c2After (by decide)).2 "owner" c2Decision 6

/-! ## Claim C3: MFA gating of single-factor authenticate -/

/-- C3: for every stored user with `mfaEnabled = true` (the record
`createUser(userId, passphrase, true)` produces) and a correct
passphrase factor, `authenticate` fails with the distinguished
requires-MFA outcome and leaves the state unchanged — in particular no
session is added to the session list of the user. -/
theorem authenticate_mfa_gating (st : AuthState) (userId passphrase : String)
    (auth : StoredAuth) (sessionRand : String) (now : Nat)
    (huser : aget st.authData userId = some auth)
    (hmfa : auth.mfaEnabled = true)
    (hpass : auth.passphraseHash = hashPassphrase passphrase auth.salt) :
    authenticate st userId (.passphrase passphrase) sessionRand now =
      (.err "Multi-factor authentication required" true, st) := by
  unfold authenticate
  rw [huser]
  simp [validateFactor, hpass, hmfa, AuthFactor.factorKind]

/-- Stored auth record of the C3 and C4 witnesses: MFA enabled, hash of
the passphrase `pw`. -/
def c3Auth : StoredAuth :=
  { userId := "u1", passphraseHash := hashPassphrase "pw" "salt1",
    salt := "salt1", mfaEnabled := true, authorizedDevices := [],
    sessions := [] }

/-- Auth state of the C3 and C4 witnesses. -/
def c3State : AuthState := { authData := [("u1", c3Auth)] }

theorem authenticate_mfa_gating_witness :
    authenticate c3State "u1" (.passphrase "pw") "rand" 50 =
      (.err "Multi-factor authentication required" true, c3State) :=
  authenticate_mfa_gating c3State "u1" "pw" c3Auth "rand" 50 rfl rfl rfl

/-! ## Claim C4: authenticateMfa accepts a single passphrase factor -/

/-- The stored record with one session appended, as pushed by the
success paths of `authenticate` and `authenticateMfa`. -/
def sessionsAppended (auth : StoredAuth) (s : AuthSession) : StoredAuth :=
  { auth with sessions := auth.sessions ++ [s] }

/-- C4: for every stored user with `mfaEnabled = true`,
`authenticateMfa` with a single-element factor list holding one correct
passphrase factor succeeds and appends a session — `authenticateMfa`
enforces neither a minimum factor count nor a non-passphrase factor. -/
theorem authenticate_mfa_single_passphrase (st : AuthState)
    (userId passphrase : String) (auth : StoredAuth)
    (sessionRand : String) (now : Nat)
    (huser : aget st.authData userId = some auth)
    (_hmfa : auth.mfaEnabled = true)
    (hpass : auth.passphraseHash = hashPassphrase passphrase auth.salt) :
    authenticateMfa st userId [.passphrase passphrase] sessionRand now =
      (.ok (createSession userId [.passphrase] none sessionRand now),
       AuthState.mk (aset st.authData userId
         (sessionsAppended auth (createSession userId [.passphrase] none sessionRand now)))) := by
  unfold authenticateMfa
  rw [huser]
  simp [validateAllFactors, validateFactor, hpass, findDeviceId,
    AuthFactor.factorKind, sessionsAppended]

theorem authenticate_mfa_single_passphrase_witness :
    authenticateMfa c3State "u1" [.passphrase "pw"] "rand2" 60 =
      (.ok (createSession "u1" [.passphrase] none "rand2" 60),
       { authData := [("u1",
          sessionsAppended c3Auth (createSession "u1" [.passphrase] none "rand2" 60))] }) :=
  authenticate_mfa_single_passphrase c3State "u1" "pw" c3Auth "rand2" 60 rfl rfl rfl

/-! ## Claim C5: package integrity -/

/-- C5: for every package returned by a successful `createPackage`
under a matching signing key pair: (1) at any time not past
`metadata.expiresAt` the package is reported valid; (2) any package
carrying the same signature but a different canonical serialization
(for example a different recipient, or any other signed field changed)
fails `verifyPackage`; (3) at any time past `metadata.expiresAt` the
package is reported invalid regardless of its signature. -/
theorem package_integrity {V : Type} [DecidableEq V] (packager : DataPackager)
    (requestId recipient category : String) (fields : List String)
    (data : List (String × V)) (options : PackageOptions)
    (packageId : String) (keyRand : Nat) (iv : List Nat) (now : Nat)
    (pkg : DataPackage V)
    (hkey : packager.publicKey = packager.privateKey)
    (hcreate : createPackage packager requestId recipient category fields data
        options packageId keyRand iv now = .ok pkg) :
    (∀ t, ¬ t > pkg.metadata.expiresAt →
        isPackageValid packager pkg t = ⟨true, none⟩) ∧
    (∀ pkg2 : DataPackage V, pkg2.signature = pkg.signature →
        signedFieldsOf pkg2 ≠ signedFieldsOf pkg →
        verifyPackage packager pkg2 = false) ∧
    (∀ (pkg2 : DataPackage V) (t : Nat), t > pkg2.metadata.expiresAt →
        (isPackageValid packager pkg2 t).valid = false) := by
  refine ⟨?_, ?_, ?_⟩
  · intro t ht
    unfold createPackage at hcreate
    simp only [PackagerResult.ok.injEq] at hcreate
    subst hcreate
    unfold isPackageValid
    rw [if_neg ht]
    simp [verifyPackage, signedFieldsOf, signPackage, hkey]
  · intro pkg2 hsig hne
    unfold verifyPackage
    unfold createPackage at hcreate
    simp only [PackagerResult.ok.injEq] at hcreate
    subst hcreate
    simp only [signPackage] at hsig
    simp only [decide_eq_false_iff_not]
    intro hver
    rw [hsig] at hver
    exact hne ((congrArg RsaSig.signed hver).symm)
  · intro pkg2 t ht
    unfold isPackageValid
    rw [if_pos ht]

/-- Packager of the C5 witness: a matching symbolic key pair. -/
def c5Packager : DataPackager := { privateKey := 3, publicKey := 3 }

/-- Package options of the C5 witness: all defaults. -/
def c5Options : PackageOptions :=
  { expirationMinutes := none, oneTimeUse := none, watermark := none,
    encryptionKey := none }

/-- Canonical serialization of the C5 witness package. -/
def c5Signed : SignedFields Nat :=
  { packageId := "pkg-1", requestId := "req-1", recipient := "acme",
    category := "medical", fields := ["name"],
    encryptedData := ⟨11, [2], ⟨[("name", 42)], none⟩⟩,
    metadata := { createdAt := 0, expiresAt := 3600000, oneTimeUse := false,
                  watermarked := false } }

/-- The package produced by the C5 witness create call. -/
def c5Pkg : DataPackage Nat :=
  { packageId := "pkg-1", requestId := "req-1", recipient := "acme",
    category := "medical", fields := ["name"],
    encryptedData := ⟨11, [2], ⟨[("name", 42)], none⟩⟩, iv := [2],
    authTag := ⟨11, [2], ⟨[("name", 42)], none⟩⟩,
    signature := ⟨3, c5Signed⟩,
    metadata := { createdAt := 0, expiresAt := 3600000, oneTimeUse := false,
                  watermarked := false } }

/-- The C5 witness package with its recipient changed. -/
def c5PkgTampered : DataPackage Nat := { c5Pkg with recipient := "mallory" }

theorem package_integrity_witness :
    isPackageValid c5Packager c5Pkg 100 = ⟨true, none⟩ ∧
    verifyPackage c5Packager c5PkgTampered = false ∧
    (isPackageValid c5Packager c5Pkg 9999999).valid = false := by
  have h := package_integrity c5Packager "req-1" "acme" "medical" ["name"]
    [("name", 42), ("ssn", 9)] c5Options "pkg-1" 11 [2] 0 c5Pkg rfl (by decide)
  exact ⟨h.1 100 (by decide), h.2.1 c5PkgTampered (by decide) (by decide),
    h.2.2 c5Pkg 9999999 (by decide)⟩

/-! ## Claim C6: access-token validation and single use -/

/-- C6: `validateAccessToken` returns a token exactly when it exists in
the store, the current time is not past its expiry and its used flag is
false; and once `markTokenUsed` succeeds on an id, validation of that
id fails at every time, in particular before the expiry is reached. -/
theorem validate_token_iff_and_single_use :
    (∀ (tr : TransportState) (tokenId : String) (now : Nat) (token : AccessToken),
       validateAccessToken tr tokenId now = some token ↔
         aget tr.accessTokens tokenId = some token ∧
           ¬ now > token.expiresAt ∧ token.used = false) ∧
    (∀ (tr : TransportState) (tokenId : String) (tr2 : TransportState),
       markTokenUsed tr tokenId = (true, tr2) →
       ∀ now, validateAccessToken tr2 tokenId now = none) := by
  constructor
  · intro tr tokenId now token
    unfold validateAccessToken
    rcases h : aget tr.accessTokens tokenId with _ | t
    · simp
    · by_cases h1 : now > t.expiresAt
      · simp only [if_pos h1]
        constructor
        · intro hc; exact absurd hc (by simp)
        · rintro ⟨ht, h2, h3⟩
          injection ht with ht; subst ht
          exact absurd h1 h2
      · by_cases h2 : t.used
        · simp only [if_neg h1, if_pos h2]
          constructor
          · intro hc; exact absurd hc (by simp)
          · rintro ⟨ht, h3, h4⟩
            injection ht with ht; subst ht
            simp [h2] at h4
        · simp only [if_neg h1, if_neg h2]
          constructor
          · intro hc
            injection hc with hc; subst hc
            exact ⟨rfl, h1, by simpa using h2⟩
          · rintro ⟨ht, h3, h4⟩
            injection ht with ht; subst ht; rfl
  · intro tr tokenId tr2 h now
    unfold markTokenUsed at h
    rcases ht : aget tr.accessTokens tokenId with _ | t
    · rw [ht] at h; simp at h
    · rw [ht] at h
      simp only [Prod.mk.injEq] at h
      obtain ⟨-, h2⟩ := h
      subst h2
      unfold validateAccessToken
      rw [aget_aset_self]
      by_cases h1 : now > t.expiresAt <;> simp [h1]

/-- Token of the C6 witness, expiring at time 1000, unused. -/
def c6Token : AccessToken :=
  { tokenId := "t1", packageId := "p1", recipient := "acme",
    encryptionKey := "k1", expiresAt := 1000, used := false }

/-- Transport state of the C6 witness. -/
def c6Transport : TransportState :=
  { baseUrl := "https://vault.example", accessTokens := [("t1", c6Token)] }

/-- Transport state of the C6 witness after `markTokenUsed`. -/
def c6TransportUsed : TransportState :=
  { baseUrl := "https://vault.example",
    accessTokens := [("t1", { c6Token with used := true })] }

theorem validate_token_iff_and_single_use_witness :
    validateAccessToken c6Transport "t1" 5 = some c6Token ∧
    validateAccessToken c6TransportUsed "t1" 5 = none :=
  ⟨(validate_token_iff_and_single_use.1 c6Transport "t1" 5 c6Token).mpr
     ⟨rfl, by decide, rfl⟩,
   validate_token_iff_and_single_use.2 c6Transport "t1" c6TransportUsed
     (by decide) 5⟩

/-! ## Claim C7: canFulfillRequest conditions and usage exhaustion -/

/-- Restrictions of the C7 counterexample: `validUntil` set to `0`. -/
def c7Restr : Restrictions :=
  { maxUses := none, usesRemaining := none, validUntil := some 0,
    allowedRecipients := none }

/-- Approved approval of the C7 counterexample. -/
def c7Approval : DataApproval :=
  { requestId := "req-7", status := .approved, approvedBy := some "owner",
    approvedAt := some 0, rejectedBy := none, rejectedAt := none,
    reason := none, restrictions := some c7Restr }

/-- Workflow state of the C7 counterexample. -/
def c7State : WorkflowState :=
  { pendingRequests := [], approvals := [("req-7", c7Approval)] }

/-- C7 counterexample: the approval has restrictions whose `validUntil`
is set to `0`, which has passed at time `1`, so the claimed
characterization requires `canFulfillRequest` to be false — yet it
returns true, because the JavaScript truthiness test skips a zero
`validUntil`. -/
theorem can_fulfill_counterexample :
    canFulfillRequest c7State "req-7" 1 = true ∧
    aget c7State.approvals "req-7" = some c7Approval ∧
    c7Approval.restrictions = some c7Restr ∧
    c7Restr.validUntil = some 0 ∧ 1 > 0 := by
  refine ⟨by decide, by decide, by decide, by decide, by decide⟩

/-- An approval with its tracked remaining-use count replaced, as
produced by `recordFulfillment`. -/
def withUses (a : DataApproval) (r : Restrictions) (u : Int) : DataApproval :=
  { a with restrictions := some { r with usesRemaining := some u } }

/-- C7 amended: `canFulfillRequest` is true exactly when the approval
exists with status `approved` and, when restrictions are present,
`validUntil` (if set to a nonzero time — a zero value is skipped by the
JavaScript truthiness test) has not passed and `usesRemaining` (if
tracked) is positive; and for an approval with `maxUses = 1` and
`usesRemaining = 1`, one `recordFulfillment` call brings
`usesRemaining` to 0, after which `canFulfillRequest` is false. -/
theorem restriction_gate_iff (r : Restrictions) (now : Nat) :
    ((if jsTruthyNat r.validUntil ∧ now > r.validUntil.getD 0 then false
      else if r.usesRemaining.isSome ∧ r.usesRemaining.getD 0 ≤ 0 then false
      else true) = true) ↔
      ((∀ v, r.validUntil = some v → v ≠ 0 → ¬ now > v) ∧
       (∀ u, r.usesRemaining = some u → 0 < u)) := by
  obtain ⟨mu, ur, vu, ar⟩ := r
  rcases vu with _ | v <;> rcases ur with _ | u <;>
    simp [jsTruthyNat] <;> omega

theorem can_fulfill_iff_and_exhaustion :
    (∀ (st : WorkflowState) (requestId : String) (now : Nat),
       canFulfillRequest st requestId now = true ↔
         ∃ a, aget st.approvals requestId = some a ∧
           a.status = .approved ∧
           ∀ r, a.restrictions = some r →
             (∀ v, r.validUntil = some v → v ≠ 0 → ¬ now > v) ∧
             (∀ u, r.usesRemaining = some u → 0 < u)) ∧
    (∀ (st : WorkflowState) (requestId : String) (a : DataApproval)
        (r : Restrictions),
       aget st.approvals requestId = some a → a.status = .approved →
       a.restrictions = some r → r.maxUses = some 1 → r.usesRemaining = some 1 →
       aget (recordFulfillment st requestId).2.approvals requestId =
         some (withUses a r 0) ∧
       ∀ now, canFulfillRequest (recordFulfillment st requestId).2 requestId now
         = false) := by
  constructor
  · intro st requestId now
    unfold canFulfillRequest
    cases h : aget st.approvals requestId with
    | none => simp
    | some a =>
      dsimp only
      by_cases hs : a.status = ApprovalStatus.approved
      · rw [if_neg (by simp [hs])]
        cases hr : a.restrictions with
        | none =>
          simp only [true_iff]
          refine ⟨a, rfl, hs, ?_⟩
          intro r2 hr2
          rw [hr] at hr2
          exact absurd hr2 (by simp)
        | some r =>
          dsimp only
          rw [restriction_gate_iff r now]
          constructor
          · intro hgate
            refine ⟨a, rfl, hs, ?_⟩
            intro r2 hr2
            rw [hr] at hr2
            injection hr2 with hr2
            subst hr2
            exact hgate
          · rintro ⟨a2, ha2, hs2, hcond⟩
            injection ha2 with ha2
            subst ha2
            exact hcond r hr
      · rw [if_pos (by simp [hs])]
        constructor
        · intro hc; exact absurd hc (by simp)
        · rintro ⟨a2, ha2, hs2, -⟩
          injection ha2 with ha2
          subst ha2
          exact absurd hs2 hs
  · intro st requestId a r h hs hr hm hu
    have hrec : (recordFulfillment st requestId).2 =
        { st with approvals := aset st.approvals requestId (withUses a r 0) } := by
      unfold recordFulfillment
      rw [h]
      dsimp only
      rw [hr]
      dsimp only
      rw [hu]
      dsimp only
      simp [withUses]
    refine ⟨by rw [hrec]; exact aget_aset_self _ _ _, ?_⟩
    intro now
    unfold canFulfillRequest
    rw [hrec]
    dsimp only
    rw [aget_aset_self]
    dsimp only
    rw [if_neg (by simp [withUses, hs])]
    simp only [withUses]
    dsimp only
    by_cases hv : jsTruthyNat r.validUntil ∧ now > r.validUntil.getD 0
    · rw [if_pos (by simpa using hv)]
    · rw [if_neg (by simpa using hv), if_pos (by simp)]

/-- Restrictions of the C7 witness: one use granted, one remaining. -/
def c7wRestr : Restrictions :=
  { maxUses := some 1, usesRemaining := some 1, validUntil := none,
    allowedRecipients := none }

/-- Approved approval of the C7 witness. -/
def c7wApproval : DataApproval :=
  { requestId := "req-8", status := .approved, approvedBy := some "owner",
    approvedAt := some 0, rejectedBy := none, rejectedAt := none,
    reason := none, restrictions := some c7wRestr }

/-- Workflow state of the C7 witness. -/
def c7wState : WorkflowState :=
  { pendingRequests := [], approvals := [("req-8", c7wApproval)] }

theorem can_fulfill_iff_and_exhaustion_witness :
    canFulfillRequest c7wState "req-8" 5 = true ∧
    canFulfillRequest (recordFulfillment c7wState "req-8").2 "req-8" 5 = false :=
  ⟨(can_fulfill_iff_and_exhaustion.1 c7wState "req-8" 5).mpr
     ⟨c7wApproval, rfl, rfl, by
       rintro r2 hr2
       injection hr2 with hr2
       subst hr2
       exact ⟨by simp [c7wRestr], by rintro u hu2; injection hu2 with hu2; omega⟩⟩,
   (can_fulfill_iff_and_exhaustion.2 c7wState "req-8" c7wApproval c7wRestr
     rfl rfl rfl rfl rfl).2 5⟩

/-! ## Claim C8: artifacts of the delivery methods -/

/-- Transport state of the C8 scenario: empty token store. -/
def c8Transport : TransportState :=
  { baseUrl := "https://vault.example", accessTokens := [] }

/-- Channel delivery options of the C8 counterexample. -/
def c8ChannelOptions : DeliveryOptions :=
  { method := .channel, recipient := "acme", encryptionKey := none,
    expirationMinutes := none, notifyRecipient := none }

/-- C8 counterexample: channel delivery yields no access URL and mints
no token into the token store (the state is unchanged and the store
stays empty), so it does not produce the portal artifact of a minted,
recorded access token plus an access URL. -/
theorem deliver_channel_counterexample :
    (deliverPackage c8Transport c5Pkg c8ChannelOptions "tok" "key" 0).1.accessUrl
      = none ∧
    (deliverPackage c8Transport c5Pkg c8ChannelOptions "tok" "key" 0).2
      = c8Transport := by
  refine ⟨by decide, by decide⟩

/-- C8 amended: only email delivery degrades to the portal artifact (a
fresh access token recorded in the token store plus an access URL);
api delivery returns a fresh delivery id and an access URL but records
no token; channel delivery returns only the package id as delivery id,
with no URL, no key and no recorded token. -/
theorem deliver_methods_amended {V : Type} (tr : TransportState)
    (pkg : DataPackage V) (options : DeliveryOptions)
    (tokenRand keyRand : String) (now : Nat) :
    (options.method = .email →
      deliverPackage tr pkg options tokenRand keyRand now =
        deliverViaPortal tr pkg options tokenRand keyRand now ∧
      (deliverPackage tr pkg options tokenRand keyRand now).1.accessUrl =
        some (tr.baseUrl ++ "/vault/access/" ++ tokenRand) ∧
      aget (deliverPackage tr pkg options tokenRand keyRand now).2.accessTokens
        tokenRand ≠ none) ∧
    (options.method = .api →
      deliverPackage tr pkg options tokenRand keyRand now =
        ({ success := true, deliveryId := some tokenRand,
           accessUrl := some (tr.baseUrl ++ "/api/vault/packages/" ++ pkg.packageId),
           encryptionKey := options.encryptionKey, error := none }, tr)) ∧
    (options.method = .channel →
      deliverPackage tr pkg options tokenRand keyRand now =
        ({ success := true, deliveryId := some pkg.packageId, accessUrl := none,
           encryptionKey := none, error := none }, tr)) := by
  refine ⟨?_, ?_, ?_⟩
  · intro hm
    unfold deliverPackage
    rw [hm]
    refine ⟨rfl, rfl, ?_⟩
    unfold deliverViaEmail deliverViaPortal
    dsimp only
    rw [aget_aset_self]
    simp
  · intro hm
    unfold deliverPackage deliverViaApi
    rw [hm]
  · intro hm
    unfold deliverPackage deliverViaChannel
    rw [hm]

/-- Email delivery options of the C8 witness. -/
def c8EmailOptions : DeliveryOptions :=
  { method := .email, recipient := "acme", encryptionKey := none,
    expirationMinutes := none, notifyRecipient := none }

/-- Api delivery options of the C8 witness. -/
def c8ApiOptions : DeliveryOptions :=
  { method := .api, recipient := "acme", encryptionKey := none,
    expirationMinutes := none, notifyRecipient := none }

theorem deliver_methods_amended_witness :
    (deliverPackage c8Transport c5Pkg c8EmailOptions "tok" "key" 0).1.accessUrl =
      some "https://vault.example/vault/access/tok" ∧
    (deliverPackage c8Transport c5Pkg c8ApiOptions "tok" "key" 0).2 = c8Transport ∧
    (deliverPackage c8Transport c5Pkg c8ChannelOptions "tok" "key" 0).1.deliveryId =
      some "pkg-1" :=
  ⟨((deliver_methods_amended c8Transport c5Pkg c8EmailOptions "tok" "key" 0).1
      rfl).2.1,
   by rw [(deliver_methods_amended c8Transport c5Pkg c8ApiOptions "tok" "key" 0).2.1
      rfl],
   by rw [(deliver_methods_amended c8Transport c5Pkg c8ChannelOptions "tok" "key"
      0).2.2 rfl]; rfl⟩

/-! ## Claim C9: the wildcard field value in permission checks -/

/-- Grant of the C9 counterexample: fields restricted to `name`. -/
def c9Perm : Permission :=
  { category := "medical", fields := some ["name"], level := [.read],
    conditions := none }

/-- Engine state of the C9 counterexample. -/
def c9Perms : List (String × List Permission) := [("u1", [c9Perm])]

/-- C9 counterexample: a permission check whose requested field set is
the wildcard `*` is denied at the field-restriction step (the reason
lists the offending field `*`), so the wildcard does not bypass field
filtering in `checkPermission`. -/
theorem wildcard_check_permission_counterexample :
    checkPermission c9Perms "u1" "medical" ["*"] .read none 0 =
      ⟨false, some (fieldsDeniedReason ["*"])⟩ := by
  decide

/-- C9 amended: the wildcard bypass lives in the Data Packager, not in
`checkPermission`: a requested field list containing `*` makes
`filterFields` pass the data through unfiltered, while `checkPermission`
gives `*` no special treatment — against a grant with a non-empty
restricted field list that does not itself contain `*`, a request whose
fields contain `*` is denied at the field-restriction step with the
list of offending fields. -/
theorem wildcard_filter_fields_amended {V : Type}
    (data : List (String × V)) (dataFields : List String)
    (perms : List (String × List Permission)) (userId category : String)
    (reqFields : List String) (level : PermissionLevel)
    (context : Option PermContext) (now : Nat)
    (userPerms : List Permission) (matchingPerm : Permission)
    (permFields : List String)
    (hw : dataFields.contains "*" = true)
    (hu : aget perms userId = some userPerms)
    (hfind : userPerms.find? (fun p => p.category = category) = some matchingPerm)
    (hlevel : matchingPerm.level.contains level = true)
    (hpf : matchingPerm.fields = some permFields)
    (hne : permFields ≠ [])
    (hstar : permFields.contains "*" = false)
    (hreq : reqFields.contains "*" = true) :
    filterFields data dataFields = data ∧
    checkPermission perms userId category reqFields level context now =
      ⟨false, some (fieldsDeniedReason
        (reqFields.filter (fun f => ¬ permFields.contains f)))⟩ := by
  constructor
  · unfold filterFields
    rw [if_pos hw]
  · unfold checkPermission
    rw [hu]
    dsimp only
    rw [if_neg (by
      simp only [List.isEmpty_iff]
      intro hempty
      rw [hempty] at hfind
      simp [List.find?] at hfind)]
    rw [hfind]
    dsimp only
    rw [if_neg (not_not_intro hlevel)]
    rw [hpf]
    dsimp only
    rw [if_neg (by simpa using hne)]
    have hmem : "*" ∈ reqFields.filter (fun f => ¬ permFields.contains f) := by
      rw [List.mem_filter]
      constructor
      · simpa using hreq
      · simpa using hstar
    rw [if_neg (by
      simp only [List.isEmpty_iff]
      intro hempty
      rw [hempty] at hmem
      simp at hmem)]

/-- C9 witness data. -/
def c9Data : List (String × Nat) := [("name", 1), ("ssn", 2)]

theorem wildcard_filter_fields_amended_witness :
    filterFields c9Data ["*"] = c9Data ∧
    checkPermission c9Perms "u1" "medical" ["*", "ssn"] .read none 0 =
      ⟨false, some (fieldsDeniedReason ["*", "ssn"])⟩ := by
  have h := wildcard_filter_fields_amended c9Data ["*"] c9Perms "u1" "medical"
    ["*", "ssn"] .read none 0 [c9Perm] c9Perm ["name"]
    (by decide) rfl (by decide) (by decide) rfl (by decide) (by decide) (by decide)
  exact ⟨h.1, by rw [h.2]; decide⟩

/-! ## Claim C10: recordFulfillment is unconditional -/

/-- C10: `recordFulfillment` returns true for every id holding any
approval record, with no status check of the approval, and when
`usesRemaining` is tracked it unconditionally decrements it by one with
no lower bound (`usesRemaining` lives in `Int`, so repeated calls can
drive it below zero); the stored status is left untouched. -/
theorem record_fulfillment_unconditional
    (st : WorkflowState) (requestId : String) (a : DataApproval)
    (h : aget st.approvals requestId = some a) :
    (recordFulfillment st requestId).1 = true ∧
    (∀ r u, a.restrictions = some r → r.usesRemaining = some u →
       aget (recordFulfillment st requestId).2.approvals requestId =
         some (withUses a r (u - 1)) ∧ (withUses a r (u - 1)).status = a.status) := by
  constructor
  · unfold recordFulfillment
    rw [h]
    dsimp only
    cases hr : a.restrictions with
    | none => rfl
    | some r =>
      dsimp only
      cases hu : r.usesRemaining with
      | none => rfl
      | some u => rfl
  · intro r u hr hu
    have hrec : (recordFulfillment st requestId).2 =
        { st with approvals := aset st.approvals requestId (withUses a r (u - 1)) } := by
      unfold recordFulfillment
      rw [h]
      dsimp only
      rw [hr]
      dsimp only
      rw [hu]
      dsimp only
      simp [withUses]
    refine ⟨by rw [hrec]; exact aget_aset_self _ _ _, by simp [withUses]⟩

/-- Restrictions of the C10 witness: zero remaining uses. -/
def c10Restr : Restrictions :=
  { maxUses := some 1, usesRemaining := some 0, validUntil := none,
    allowedRecipients := none }

/-- Rejected approval of the C10 witness (fulfillment is recorded
regardless of the status). -/
def c10Approval : DataApproval :=
  { requestId := "req-10", status := .rejected, approvedBy := none,
    approvedAt := none, rejectedBy := some "owner", rejectedAt := some 0,
    reason := some "no", restrictions := some c10Restr }

/-- Workflow state of the C10 witness. -/
def c10State : WorkflowState :=
  { pendingRequests := [], approvals := [("req-10", c10Approval)] }

theorem record_fulfillment_unconditional_witness :
    (recordFulfillment c10State "req-10").1 = true ∧
    aget (recordFulfillment c10State "req-10").2.approvals "req-10" =
      some (withUses c10Approval c10Restr (0 - 1)) ∧ (0 : Int) - 1 < 0 :=
  ⟨(record_fulfillment_unconditional c10State "req-10" c10Approval rfl).1,
   ((record_fulfillment_unconditional c10State "req-10" c10Approval rfl).2
      c10Restr 0 rfl rfl).1,
   by decide⟩

end Vault
